import Mathlib

/-!
Verification of the line-transformation pipeline of `rocat` (src/main.rs),
a Unix `cat`-style line-stream filter.

Embedding conventions:
* A line is a `List Char` without its terminator, exactly as produced by
  Rust's `BufRead::lines()` (which strips the terminator).
* The output stream is a `List Char`.
* Rust `u8` arithmetic (`c as u8 + 64`) is modelled on `Nat` with explicit
  `% 256` (release-profile wrapping semantics of the cast and the addition).
* The `i32` local `line_number` is modelled on `Int` with an explicit
  wrap into `[-2^31, 2^31)` on every increment (release-profile wrapping
  semantics of `line_number += 1`).
* The fallible writer of `print_lines_to_writer` is modelled by a fuel value:
  `none` is a writer whose `write!` calls all succeed, `some k` is a writer
  whose first `k` write calls succeed and whose later calls all fail
  (a broken pipe stays broken).
-/

namespace Rocat

/-- `enum NumberingMode` from src/main.rs. -/
inductive NumberingMode where
  | None
  | All
  | NonBlank
deriving DecidableEq, Repr

/-- `struct Options` from src/main.rs. -/
structure Options where
  numbering_mode : NumberingMode
  show_ends : Bool
  squeeze_blank : Bool
  show_tabs : Bool
  show_nonprinting : Bool
  unbuffered : Bool
deriving DecidableEq, Repr

/-- Rust `char::is_whitespace`: the Unicode `White_Space` property,
used by `str::trim` in the blank-line test `line.trim().is_empty()`. -/
def rust_char_is_whitespace (c : Char) : Bool :=
  [0x09, 0x0A, 0x0B, 0x0C, 0x0D, 0x20, 0x85, 0xA0, 0x1680,
   0x2000, 0x2001, 0x2002, 0x2003, 0x2004, 0x2005, 0x2006, 0x2007,
   0x2008, 0x2009, 0x200A, 0x2028, 0x2029, 0x202F, 0x205F, 0x3000].contains c.toNat

/-- Rust `str::trim`: drop Unicode whitespace from both ends. -/
def rust_trim (l : List Char) : List Char :=
  (((l.dropWhile rust_char_is_whitespace).reverse.dropWhile
      rust_char_is_whitespace).reverse)

/-- `line.trim().is_empty()` from src/main.rs line 121. -/
def is_blank (l : List Char) : Bool :=
  (rust_trim l).isEmpty

/-- Rust `char::is_ascii_graphic`: `'!'..='~'` (U+0021 through U+007E). -/
def is_ascii_graphic (c : Char) : Bool :=
  0x21 ≤ c.toNat && c.toNat ≤ 0x7E

/-- Rust `char::is_ascii_whitespace`: space, horizontal tab, line feed,
form feed, carriage return. -/
def rust_is_ascii_whitespace (c : Char) : Bool :=
  c == ' ' || c == '\t' || c == '\n' || c == '\x0C' || c == '\r'

/-- The per-character `match` of the body transformation
(src/main.rs lines 148-157).  The nonprinting arm embeds
`(c as u8 + 64) as char` as truncation to the low byte followed by a
wrapping add, both explicit `% 256`. -/
def render_char (o : Options) (c : Char) : List Char :=
  if c == '\t' && o.show_tabs then ['^', 'I']
  else if o.show_nonprinting && !(is_ascii_graphic c) && !(rust_is_ascii_whitespace c) then
    ['^', Char.ofNat ((c.toNat % 256 + 64) % 256)]
  else [c]

/-- Wrapping into the `i32` range: release-profile semantics of `i32`
arithmetic, an explicit reduction modulo `2^32` into `[-2^31, 2^31)`. -/
def wrap_i32 (x : Int) : Int :=
  (x + 2147483648) % 4294967296 - 2147483648

/-- `write!(writer, "{:6}\t", line_number)`: the signed decimal digits of
the `i32` counter right-aligned in a 6-character space-padded field (the
field grows when the number is wider), followed by one tab. -/
def format_number (n : Int) : List Char :=
  List.replicate (6 - (Int.repr n).toList.length) ' ' ++ (Int.repr n).toList ++ ['\t']

/-- The `match options.numbering_mode` block (src/main.rs lines 133-145):
`some s` means one `write!` call emitting `s` and a counter incremented by
the wrapping `i32` addition `line_number += 1`, `none` means no write call
and an unchanged counter. -/
def number_step (mode : NumberingMode) (n : Int) (ib : Bool) :
    Option (List Char) × Int :=
  match mode with
  | NumberingMode.All => (some (format_number n), wrap_i32 (n + 1))
  | NumberingMode.NonBlank =>
      if ib then (none, n) else (some (format_number n), wrap_i32 (n + 1))
  | NumberingMode.None => (none, n)

/-- The mutable locals of `print_lines_to_writer`:
`line_number` (an `i32`, kept in `[-2^31, 2^31)` by `wrap_i32`) and
`last_was_blank`. -/
structure TransformerState where
  line_number : Int
  last_was_blank : Bool
deriving DecidableEq, Repr

/-- `print_lines_to_writer` (src/main.rs lines 116-167) with a writer whose
writes always succeed: the concatenation of everything written.
Per input line: the squeeze check, then the numbering `match`, then the
character scan, then the optional `$`, then `writeln!`. -/
def print_lines_to_writer (o : Options) :
    TransformerState → List (List Char) → List Char
  | _, [] => []
  | st, line :: rest =>
    if o.squeeze_blank && is_blank line && st.last_was_blank then
      print_lines_to_writer o st rest
    else
      let ns := number_step o.numbering_mode st.line_number (is_blank line)
      (ns.1.getD []) ++ (line.map (render_char o)).flatten ++
        (if o.show_ends then ['$'] else []) ++ ['\n'] ++
        print_lines_to_writer o ⟨ns.2, is_blank line⟩ rest

/-- One `write!` call against the fuel-modelled writer: `none` never fails,
`some 0` fails (and the writer stays broken), `some (k+1)` succeeds leaving
`some k`.  On success the written text is appended to the stream `acc`. -/
def write_call (fuel : Option Nat) (acc s : List Char) :
    Except Unit (Option Nat × List Char) :=
  match fuel with
  | none => Except.ok (none, acc ++ s)
  | some 0 => Except.error ()
  | some (k + 1) => Except.ok (some k, acc ++ s)

/-- `print_lines_to_writer` with the fallible writer: every `write!` /
`writeln!` call of src/main.rs lines 135-164 is one `write_call`; the first
failing write makes the whole call return `Err` (the `?` operator). -/
def print_lines_io (o : Options) :
    Int → Bool → Option Nat → List Char → List (List Char) →
    Except Unit (Option Nat × List Char)
  | _, _, fuel, acc, [] => Except.ok (fuel, acc)
  | n, lb, fuel, acc, line :: rest =>
    if o.squeeze_blank && is_blank line && lb then
      print_lines_io o n lb fuel acc rest
    else
      let ns := number_step o.numbering_mode n (is_blank line)
      match (match ns.1 with
             | none => Except.ok (fuel, acc)
             | some s => write_call fuel acc s) with
      | Except.error e => Except.error e
      | Except.ok (f1, a1) =>
        match write_call f1 a1 ((line.map (render_char o)).flatten) with
        | Except.error e => Except.error e
        | Except.ok (f2, a2) =>
          match (if o.show_ends then write_call f2 a2 ['$']
                 else Except.ok (f2, a2)) with
          | Except.error e => Except.error e
          | Except.ok (f3, a3) =>
            match write_call f3 a3 ['\n'] with
            | Except.error e => Except.error e
            | Except.ok (f4, a4) =>
              print_lines_io o ns.2 (is_blank line) f4 a4 rest

/-- Construction of `Options` from the argument token list
(src/main.rs lines 56-70): each flag is an `any` scan over the whole list;
`-n` is checked before `-b`. -/
def parse_options (args : List String) : Options where
  numbering_mode :=
    if args.any (fun a => a == "-n") then NumberingMode.All
    else if args.any (fun a => a == "-b") then NumberingMode.NonBlank
    else NumberingMode.None
  show_ends := args.any (fun a => a == "-e" || a == "-E")
  squeeze_blank := args.any (fun a => a == "-s")
  show_tabs := args.any (fun a => a == "-t" || a == "-T")
  show_nonprinting := args.any (fun a => a == "-v")
  unbuffered := args.any (fun a => a == "-u")

/-- A source for the per-file loop of `main`: its path together with the
result of `File::open` — either the lines it yields or the open failure's
cause (the `io::Error` display text). -/
abbrev Source := String × Except String (List (List Char))

/-- `cat_file` (src/main.rs lines 103-107) against one opened-or-failed
source: `File::open(..)?` propagates the open failure, otherwise the lines
are printed through the shared writer with a fresh transformer state
(`line_number = 1`, `last_was_blank = false`).  Returns the writer fuel left
for the next source together with the result; a write failure leaves a
broken writer (`some 0`), since `write_call` only fails at fuel `some 0`. -/
def cat_file_m (o : Options) (src : Except String (List (List Char)))
    (fuel : Option Nat) : Option Nat × Except String (List Char) :=
  match src with
  | Except.error cause => (fuel, Except.error cause)
  | Except.ok lines =>
    match print_lines_io o 1 false fuel [] lines with
    | Except.error _ => (some 0, Except.error "write error")
    | Except.ok (fuel2, out) => (fuel2, Except.ok out)

/-- The `for file_path in files` loop of `main` (src/main.rs lines 83-89):
every file is attempted in order; `if let Err(err) = cat_file(..)` reports
`Error reading {path}: {err}` on stderr and continues with the next file.
Returns (paths attempted, stderr lines, stdout stream). -/
def run_files (o : Options) :
    Option Nat → List Source → List String × List String × List Char
  | _, [] => ([], [], [])
  | fuel, (path, src) :: rest =>
    let step := cat_file_m o src fuel
    let r := run_files o step.1 rest
    match step.2 with
    | Except.error e =>
        (path :: r.1, ("Error reading " ++ path ++ ": " ++ e) :: r.2.1, r.2.2)
    | Except.ok written =>
        (path :: r.1, r.2.1, written ++ r.2.2)

/-- Outcome of one invocation of `main` on a file list. -/
structure RunResult where
  attempted : List String
  errors : List String
  out : List Char
  exit_ok : Bool
deriving Repr

/-- `main` on a non-empty file list (src/main.rs lines 83-91): run the
per-file loop, then `Ok(())` — the process exit is success regardless of
per-file errors. -/
def run_main (o : Options) (fuel : Option Nat) (srcs : List Source) :
    RunResult :=
  let r := run_files o fuel srcs
  ⟨r.1, r.2.1, r.2.2, true⟩

/-!
Specification-side definitions, written from the spec's words, to be
compared with the code embedding above (refinement).
-/

/-- The lines that survive the squeeze check, in order: a blank line whose
predecessor (among surviving lines) was blank is dropped when squeezing. -/
def emitted_lines (squeeze : Bool) : Bool → List (List Char) → List (List Char)
  | _, [] => []
  | prev, line :: rest =>
    if squeeze && is_blank line && prev then emitted_lines squeeze prev rest
    else line :: emitted_lines squeeze (is_blank line) rest

/-- Number of maximal runs of consecutive blank lines: a blank line opens a
new run exactly when the previous line was not blank. -/
def count_blank_runs : Bool → List (List Char) → Nat
  | _, [] => 0
  | prev, line :: rest =>
    (if is_blank line && !prev then 1 else 0) + count_blank_runs (is_blank line) rest

/-- Spec wording: which lines are selected for numbering — all emitted lines
under `All`, emitted non-blank lines under `NonBlank`, none under `None`. -/
def spec_selected (mode : NumberingMode) (ib : Bool) : Bool :=
  match mode with
  | NumberingMode.All => true
  | NumberingMode.NonBlank => !ib
  | NumberingMode.None => false

/-- Spec wording: the counter right-aligned in a fixed-width 6-character
space-padded field, followed by a single tab. -/
def spec_number_field (n : Int) : List Char :=
  List.leftpad 6 ' ' (Int.repr n).toList ++ ['\t']

/-- Per-line output over already-squeezed lines, following the spec's words
amended on one point: selected lines get the current counter's field, the
counter advances by the wrapping 32-bit increment per numbered line (equal
to plus one whenever the counter has not reached `i32::MAX`) and is
untouched otherwise; then the transformed body, the optional end marker,
and one newline. -/
def spec_render (o : Options) : Int → List (List Char) → List Char
  | _, [] => []
  | n, line :: rest =>
    (if spec_selected o.numbering_mode (is_blank line) then spec_number_field n
     else []) ++
    (line.map (render_char o)).flatten ++
    (if o.show_ends then ['$'] else []) ++ ['\n'] ++
    spec_render o (if spec_selected o.numbering_mode (is_blank line) then
                     wrap_i32 (n + 1)
                   else n) rest

/-- The state evolution of the `print_lines_to_writer` loop: the values of
`line_number` and `last_was_blank` after consuming the given lines, with
exactly the updates of src/main.rs lines 124-145. -/
def final_state (o : Options) : TransformerState → List (List Char) → TransformerState
  | st, [] => st
  | st, line :: rest =>
    if o.squeeze_blank && is_blank line && st.last_was_blank then
      final_state o st rest
    else
      final_state o
        ⟨(number_step o.numbering_mode st.line_number (is_blank line)).2,
         is_blank line⟩ rest

/-- The options of the repository's `default_options` test helper:
everything off. -/
def all_off : Options :=
  ⟨NumberingMode.None, false, false, false, false, false⟩

/-- Options with only `-s` (squeeze_blank) set. -/
def squeeze_only : Options :=
  ⟨NumberingMode.None, false, true, false, false, false⟩

/-- Options with only `-v` (show_nonprinting) set. -/
def v_only : Options :=
  ⟨NumberingMode.None, false, false, false, true, false⟩

/-- Options with only `-n` (number all lines) set. -/
def n_all : Options :=
  ⟨NumberingMode.All, false, false, false, false, false⟩

/-- The squeeze example input of the repository's tests:
`"Hello\n\n\n\nWorld"` split into lines. -/
def sample_lines : List (List Char) :=
  ["Hello".toList, [], [], [], "World".toList]

/-! Helper lemmas. -/

theorem format_number_eq_spec (n : Int) : format_number n = spec_number_field n := rfl

theorem number_step_eq_spec (mode : NumberingMode) (n : Int) (ib : Bool) :
    number_step mode n ib =
      ((if spec_selected mode ib then some (spec_number_field n) else none),
       (if spec_selected mode ib then wrap_i32 (n + 1) else n)) := by
  cases mode <;> cases ib <;> rfl

/-- Two successive wrapped additions collapse into one. -/
theorem wrap_i32_add (x y : Int) : wrap_i32 (wrap_i32 x + y) = wrap_i32 (x + y) := by
  unfold wrap_i32
  omega

/-- With squeezing off, every line survives the squeeze check. -/
theorem emitted_lines_no_squeeze (lines : List (List Char)) (b : Bool) :
    emitted_lines false b lines = lines := by
  induction lines generalizing b with
  | nil => rfl
  | cons line rest ih => simp [emitted_lines, ih]

/-- Closed form of the loop state on a run of all-lines-numbered, non-blank
lines: after `k` numbered lines the counter holds the wrapped sum. -/
theorem final_state_replicate (k : Nat) (n : Int) (lb : Bool) :
    final_state n_all ⟨n, lb⟩ (List.replicate k ['a']) =
      ⟨if k = 0 then n else wrap_i32 (n + k), if k = 0 then lb else false⟩ := by
  induction k generalizing n lb with
  | zero => rfl
  | succ k ih =>
    have hblank : is_blank ['a'] = false := by decide
    have hsq : n_all.squeeze_blank = false := rfl
    have hmode : n_all.numbering_mode = NumberingMode.All := rfl
    have hstep : final_state n_all ⟨n, lb⟩ (List.replicate (k + 1) ['a']) =
        final_state n_all ⟨wrap_i32 (n + 1), false⟩ (List.replicate k ['a']) := by
      simp only [List.replicate_succ, final_state, hblank, hsq, hmode,
        Bool.false_and, Bool.false_eq_true, if_false, number_step]
    rw [hstep, ih]
    by_cases hk : k = 0
    · subst hk
      norm_num
    · simp only [hk, if_false, Nat.succ_ne_zero, wrap_i32_add]
      congr 1
      push_cast
      ring_nf

theorem flatten_map_singleton (l : List Char) :
    (l.map (fun c => [c])).flatten = l := by
  induction l with
  | nil => rfl
  | cons c cs ih => simp [ih]

/-- The code-side transformer equals the spec-side renderer applied to the
squeeze-surviving lines, starting from the state's counter. -/
theorem print_eq_spec_render (lines : List (List Char)) (o : Options)
    (st : TransformerState) :
    print_lines_to_writer o st lines =
      spec_render o st.line_number
        (emitted_lines o.squeeze_blank st.last_was_blank lines) := by
  induction lines generalizing st with
  | nil => rfl
  | cons line rest ih =>
    by_cases h : (o.squeeze_blank && is_blank line && st.last_was_blank) = true
    · simp only [print_lines_to_writer, emitted_lines, h, if_true, ih]
    · simp only [print_lines_to_writer, emitted_lines, h, if_false,
        number_step_eq_spec, spec_render, ih]
      by_cases hs : spec_selected o.numbering_mode (is_blank line) = true <;>
        simp [hs]

/-- Blank lines among the squeeze-surviving lines are in bijection with the
maximal blank runs of the input: exactly one survives per run. -/
theorem countP_emitted_eq_runs (lines : List (List Char)) (prev : Bool) :
    (emitted_lines true prev lines).countP is_blank = count_blank_runs prev lines := by
  induction lines generalizing prev with
  | nil => rfl
  | cons line rest ih =>
    cases hb : is_blank line <;> cases hp : prev <;>
      simp [emitted_lines, count_blank_runs, hb, hp, List.countP_cons, ih,
        Nat.add_comm]

/-- With tab and nonprinting rendering disabled, every character passes
through unchanged. -/
theorem render_char_id (o : Options) (c : Char) (h4 : o.show_tabs = false)
    (h5 : o.show_nonprinting = false) : render_char o c = [c] := by
  simp [render_char, h4, h5]

/-- With tab and nonprinting rendering disabled, the whole body scan is the
identity. -/
theorem body_scan_id (o : Options) (h4 : o.show_tabs = false)
    (h5 : o.show_nonprinting = false) (l : List Char) :
    (l.map (render_char o)).flatten = l := by
  induction l with
  | nil => rfl
  | cons c cs ih => simp [render_char_id o c h4 h5, ih]

/-- Against a writer whose writes all succeed, `print_lines_to_writer`
returns `Ok` and writes exactly the pure output: the only fallible per-line
operation is the write itself. -/
theorem print_lines_io_none (lines : List (List Char)) (o : Options) (n : Int)
    (lb : Bool) (acc : List Char) :
    print_lines_io o n lb none acc lines =
      Except.ok (none, acc ++ print_lines_to_writer o ⟨n, lb⟩ lines) := by
  induction lines generalizing n lb acc with
  | nil => simp [print_lines_io, print_lines_to_writer]
  | cons line rest ih =>
    by_cases h : (o.squeeze_blank && is_blank line && lb) = true
    · simp only [print_lines_io, print_lines_to_writer, h, if_true, ih]
    · simp only [print_lines_io, print_lines_to_writer, h, if_false,
        number_step_eq_spec]
      by_cases hs : spec_selected o.numbering_mode (is_blank line) = true <;>
        cases he : o.show_ends <;>
          simp [hs, he, write_call, ih, List.append_assoc]

/-- A broken writer (fuel `some 0`) makes the first write of any
non-squeezed line fail, so the whole call returns `Err` at once. -/
theorem print_lines_io_broken (o : Options) (n : Int) (acc l : List Char)
    (ls : List (List Char)) :
    print_lines_io o n false (some 0) acc (l :: ls) = Except.error () := by
  simp only [print_lines_io, Bool.and_false, Bool.false_eq_true, if_false,
    number_step_eq_spec]
  by_cases hs : spec_selected o.numbering_mode (is_blank l) = true <;>
    simp [hs, write_call]

/-- `cat_file` leaves an unbroken infallible writer infallible. -/
theorem cat_file_m_none_fuel (o : Options)
    (src : Except String (List (List Char))) :
    (cat_file_m o src none).1 = none := by
  cases src with
  | error cause => rfl
  | ok lines => simp [cat_file_m, print_lines_io_none]

/-- The per-file loop attempts every source, in order, whatever the
per-source outcomes. -/
theorem run_files_attempts (srcs : List Source) (o : Options)
    (fuel : Option Nat) : (run_files o fuel srcs).1 = srcs.map Prod.fst := by
  induction srcs generalizing fuel with
  | nil => rfl
  | cons s rest ih =>
    obtain ⟨path, src⟩ := s
    simp only [run_files]
    cases (cat_file_m o src fuel).2 <;> simp [ih]

/-- With an infallible writer, an unopenable source's error message —
path and cause — reaches the error stream. -/
theorem run_files_open_error_mem (srcs : List Source) (o : Options)
    (path cause : String) (hmem : (path, Except.error cause) ∈ srcs) :
    ("Error reading " ++ path ++ ": " ++ cause) ∈ (run_files o none srcs).2.1 := by
  induction srcs with
  | nil => cases hmem
  | cons s rest ih =>
    obtain ⟨p, src⟩ := s
    rcases List.mem_cons.mp hmem with hhead | htail
    · obtain ⟨hp, hsrc⟩ := Prod.mk.injEq .. ▸ hhead
      subst hp; subst hsrc
      simp [run_files, cat_file_m]
    · have hfuel : (cat_file_m o src none).1 = none := cat_file_m_none_fuel o src
      simp only [run_files, hfuel]
      cases (cat_file_m o src none).2 <;> simp [ih htail]

/-! Claim theorems. -/

/-- C1: for every input line sequence, when `numbering_mode` is `None` and
`show_ends`, `squeeze_blank`, `show_tabs`, `show_nonprinting` are all false,
the transformer's output equals the input with each line re-terminated by
exactly one newline character. -/
theorem c1_round_trip_identity (o : Options)
    (h1 : o.numbering_mode = NumberingMode.None) (h2 : o.show_ends = false)
    (h3 : o.squeeze_blank = false) (h4 : o.show_tabs = false)
    (h5 : o.show_nonprinting = false) (st : TransformerState)
    (lines : List (List Char)) :
    print_lines_to_writer o st lines =
      (lines.map (fun l => l ++ ['\n'])).flatten := by
  induction lines generalizing st with
  | nil => rfl
  | cons line rest ih =>
    simp only [print_lines_to_writer, h1, h2, h3, number_step, List.map_cons,
      List.flatten_cons, Bool.false_and, Bool.false_eq_true, if_false,
      body_scan_id o h4 h5, ih, Option.getD_none]
    simp

/-- C1 witness: the `"Hello\nWorld"` scenario with all flags off. -/
theorem c1_round_trip_identity_witness :
    all_off.numbering_mode = NumberingMode.None ∧ all_off.show_ends = false ∧
    all_off.squeeze_blank = false ∧ all_off.show_tabs = false ∧
    all_off.show_nonprinting = false ∧
    print_lines_to_writer all_off ⟨1, false⟩ ["Hello".toList, "World".toList] =
      (["Hello".toList, "World".toList].map (fun l => l ++ ['\n'])).flatten :=
  ⟨rfl, rfl, rfl, rfl, rfl,
   c1_round_trip_identity all_off rfl rfl rfl rfl rfl ⟨1, false⟩ _⟩

/-- C2: with `squeeze_blank` on, the lines printed are exactly the
squeeze-surviving lines, whose blank-line count equals the number of maximal
blank runs of the input (one survivor per run of any length `N ≥ 1`); a
discarded line emits nothing and leaves the whole state — including the line
counter — unchanged. -/
theorem c2_squeeze_blank (o : Options) (h : o.squeeze_blank = true)
    (lines : List (List Char)) (st : TransformerState) (l : List Char)
    (rest : List (List Char)) (hb : is_blank l = true)
    (hp : st.last_was_blank = true) :
    (emitted_lines true false lines).countP is_blank =
      count_blank_runs false lines ∧
    print_lines_to_writer o st lines =
      spec_render o st.line_number (emitted_lines true st.last_was_blank lines) ∧
    print_lines_to_writer o st (l :: rest) = print_lines_to_writer o st rest := by
  refine ⟨countP_emitted_eq_runs lines false, ?_, ?_⟩
  · have hh := print_eq_spec_render lines o st
    rwa [h] at hh
  · simp [print_lines_to_writer, h, hb, hp]

/-- C2 witness: the `"Hello\n\n\n\nWorld"` squeeze scenario, plus one
concrete discarded blank line. -/
theorem c2_squeeze_blank_witness :
    squeeze_only.squeeze_blank = true ∧ is_blank ([] : List Char) = true ∧
    (⟨1, true⟩ : TransformerState).last_was_blank = true ∧
    ((emitted_lines true false sample_lines).countP is_blank =
       count_blank_runs false sample_lines ∧
     print_lines_to_writer squeeze_only ⟨1, true⟩ sample_lines =
       spec_render squeeze_only 1 (emitted_lines true true sample_lines) ∧
     print_lines_to_writer squeeze_only ⟨1, true⟩ ([] :: [['a']]) =
       print_lines_to_writer squeeze_only ⟨1, true⟩ [['a']]) :=
  ⟨rfl, by decide, rfl,
   c2_squeeze_blank squeeze_only rfl sample_lines ⟨1, true⟩ [] [['a']]
     (by decide) rfl⟩

/-- C3 counterexample: the counter does not increase by exactly 1 per
numbered line.  On the concrete input of `2^31 - 1` copies of the non-blank
line `"a"` under `-n` (no line squeezed or skipped, so all `2^31 - 1` lines
are numbered), the loop's counter ends at `-2147483648`, while a counter
that starts at 1 and increases by exactly 1 per numbered line would end at
`1 + (2^31 - 1) = 2147483648`: `line_number += 1` is wrapping `i32`
arithmetic. -/
theorem c3_plus_one_counter_cex :
    emitted_lines n_all.squeeze_blank false (List.replicate 2147483647 ['a']) =
      List.replicate 2147483647 ['a'] ∧
    (final_state n_all ⟨1, false⟩
        (List.replicate 2147483647 ['a'])).line_number = -2147483648 ∧
    (-2147483648 : Int) ≠ 1 + 2147483647 := by
  refine ⟨emitted_lines_no_squeeze _ _, ?_, by decide⟩
  rw [final_state_replicate]
  norm_num [wrap_i32]

/-- C3 amended: starting from the fresh per-source state (counter 1,
previous line not blank), the transformer's output is the spec-side
rendering of the squeeze-surviving lines: exactly the selected lines (all
under `All`, non-blank under `NonBlank`, none under `None`) receive the
6-wide space-padded right-aligned counter field plus one tab, the counter
starts at 1 and advances by the wrapping 32-bit increment per numbered line
— equal to exactly plus one whenever the counter has not reached
`i32::MAX` — and skipped or squeezed lines never consume a number. -/
theorem c3_numbering_discipline (o : Options) (lines : List (List Char)) :
    print_lines_to_writer o ⟨1, false⟩ lines =
      spec_render o 1 (emitted_lines o.squeeze_blank false lines) :=
  print_eq_spec_render lines o ⟨1, false⟩

/-- C4: whenever both `-n` and `-b` occur among the argument tokens, in any
order and position, the constructed option set numbers all lines. -/
theorem c4_n_overrides_b (args : List String) (hn : "-n" ∈ args)
    (hb : "-b" ∈ args) :
    (parse_options args).numbering_mode = NumberingMode.All := by
  have hany : args.any (fun a => a == "-n") = true :=
    List.any_eq_true.mpr ⟨"-n", hn, by simp⟩
  simp [parse_options, hany]

/-- C4 witness: `-b` before `-n` still numbers all lines. -/
theorem c4_n_overrides_b_witness :
    "-n" ∈ ["rocat", "-b", "-n", "file.txt"] ∧
    "-b" ∈ ["rocat", "-b", "-n", "file.txt"] ∧
    (parse_options ["rocat", "-b", "-n", "file.txt"]).numbering_mode =
      NumberingMode.All :=
  ⟨by simp, by simp, c4_n_overrides_b _ (by simp) (by simp)⟩

/-- C5 counterexample: U+0100 is neither a tab, an ASCII graphic character,
nor ASCII whitespace, yet with `show_nonprinting` on the code does not emit
the character at code point + 64: `(c as u8 + 64) as char` first truncates
the code point to its low byte. -/
theorem c5_codepoint_plus64_cex :
    v_only.show_nonprinting = true ∧ Char.ofNat 0x100 ≠ '\t' ∧
    is_ascii_graphic (Char.ofNat 0x100) = false ∧
    rust_is_ascii_whitespace (Char.ofNat 0x100) = false ∧
    render_char v_only (Char.ofNat 0x100) ≠
      ['^', Char.ofNat ((Char.ofNat 0x100).toNat + 64)] := by
  decide

/-- C5 amended: for a character that is not ASCII-graphic and not ASCII
whitespace (hence not a tab), the body transformation emits, when
`show_nonprinting` is on, `^` followed by the character at code point
`((cp % 256) + 64) % 256` — the original code point's low byte plus 64 with
wrapping, which equals `cp + 64` exactly when `cp < 192`; when
`show_nonprinting` is off the character is emitted unchanged. -/
theorem c5_nonprinting_render (o : Options) (c : Char)
    (hg : is_ascii_graphic c = false)
    (hw : rust_is_ascii_whitespace c = false) :
    render_char o c =
      if o.show_nonprinting then
        ['^', Char.ofNat ((c.toNat % 256 + 64) % 256)]
      else [c] := by
  have ht : (c == '\t') = false := by
    cases htb : (c == '\t') with
    | false => rfl
    | true =>
      have : rust_is_ascii_whitespace c = true := by
        simp [rust_is_ascii_whitespace, htb]
      rw [this] at hw
      cases hw
  cases hv : o.show_nonprinting <;> simp [render_char, ht, hg, hw, hv]

/-- C5 amended witness: the control character U+0001 becomes `^A`. -/
theorem c5_nonprinting_render_witness :
    is_ascii_graphic '\x01' = false ∧
    rust_is_ascii_whitespace '\x01' = false ∧
    render_char v_only '\x01' =
      if v_only.show_nonprinting then
        ['^', Char.ofNat ((('\x01').toNat % 256 + 64) % 256)]
      else ['\x01'] :=
  ⟨by decide, by decide,
   c5_nonprinting_render v_only '\x01' (by decide) (by decide)⟩

/-- C6: a tab character is rendered as `^I` exactly when `show_tabs` is on
and passes through unchanged otherwise, for every option set — in
particular it is never caret-escaped even when `show_nonprinting` is on:
the tab arm of the match is tried first, and the nonprinting arm excludes
ASCII whitespace. -/
theorem c6_tab_never_caret (o : Options) :
    render_char o '\t' = if o.show_tabs then ['^', 'I'] else ['\t'] := by
  have hws : rust_is_ascii_whitespace '\t' = true := by decide
  cases ht : o.show_tabs <;> simp [render_char, ht, hws]

/-- C7: against a writer whose writes all succeed, processing any line
sequence under any options from any state returns `Ok` with exactly the
pure transformer's output: every per-line operation — blank test, squeeze
check, numbering, character scan with caret-escaping — is total, and only
the underlying write can fail. -/
theorem c7_total_except_write (o : Options) (n : Int) (lb : Bool)
    (acc : List Char) (lines : List (List Char)) :
    print_lines_io o n lb none acc lines =
      Except.ok (none, acc ++ print_lines_to_writer o ⟨n, lb⟩ lines) :=
  print_lines_io_none lines o n lb acc

/-- C8 counterexample: with a writer that rejects every write, the first
source "a" fails with a write error, yet source "b" is still attempted and
the process exits successfully — the write failure is not fatal to the
invocation. -/
theorem c8_write_error_fatal_cex :
    (cat_file_m all_off (Except.ok [['x']]) (some 0)).2 =
      Except.error "write error" ∧
    (run_main all_off (some 0)
        [("a", Except.ok [['x']]), ("b", Except.ok [['y']])]).attempted =
      ["a", "b"] ∧
    (run_main all_off (some 0)
        [("a", Except.ok [['x']]), ("b", Except.ok [['y']])]).exit_ok = true :=
  ⟨rfl, rfl, rfl⟩

/-- C8 amended: a write failure aborts processing of the current source
immediately (the first failing write makes the whole per-source call
return `Err`), but it is not fatal to the invocation: the per-file loop
reports `Error reading <path>: <err>` on the error stream, still attempts
every remaining source in order, and the process exits successfully. -/
theorem c8_write_error_isolated (o : Options) (fuel : Option Nat)
    (path : String) (lines : List (List Char)) (rest : List Source)
    (hw : (cat_file_m o (Except.ok lines) fuel).2 = Except.error "write error")
    (n : Int) (acc l : List Char) (ls : List (List Char)) :
    print_lines_io o n false (some 0) acc (l :: ls) = Except.error () ∧
    (run_main o fuel ((path, Except.ok lines) :: rest)).attempted =
      path :: rest.map Prod.fst ∧
    ("Error reading " ++ path ++ ": " ++ "write error") ∈
      (run_main o fuel ((path, Except.ok lines) :: rest)).errors ∧
    (run_main o fuel ((path, Except.ok lines) :: rest)).exit_ok = true := by
  refine ⟨print_lines_io_broken o n acc l ls, ?_, ?_, rfl⟩
  · simpa [run_main] using
      run_files_attempts ((path, Except.ok lines) :: rest) o fuel
  · simp [run_main, run_files, hw]

/-- C8 amended witness: broken writer, two sources, error on the first. -/
theorem c8_write_error_isolated_witness :
    (cat_file_m all_off (Except.ok [['x']]) (some 0)).2 =
      Except.error "write error" ∧
    (print_lines_io all_off 1 false (some 0) [] [['x']] = Except.error () ∧
     (run_main all_off (some 0)
         [("a", Except.ok [['x']]), ("b", Except.ok [['y']])]).attempted =
       "a" :: [("b", (Except.ok [['y']] : Except String (List (List Char))))].map
         Prod.fst ∧
     ("Error reading " ++ "a" ++ ": " ++ "write error") ∈
       (run_main all_off (some 0)
         [("a", Except.ok [['x']]), ("b", Except.ok [['y']])]).errors ∧
     (run_main all_off (some 0)
         [("a", Except.ok [['x']]), ("b", Except.ok [['y']])]).exit_ok = true) :=
  ⟨rfl,
   c8_write_error_isolated all_off (some 0) "a" [['x']]
     [("b", Except.ok [['y']])] rfl 1 [] ['x'] []⟩

/-- C9: with a healthy writer, an unopenable source yields a reported error
on the error channel containing its path and the underlying cause, all
sources are still attempted in their given order, and the invocation exits
successfully. -/
theorem c9_open_error_isolated (o : Options) (srcs : List Source)
    (path cause : String) (hmem : (path, Except.error cause) ∈ srcs) :
    (run_main o none srcs).attempted = srcs.map Prod.fst ∧
    ("Error reading " ++ path ++ ": " ++ cause) ∈ (run_main o none srcs).errors ∧
    (run_main o none srcs).exit_ok = true :=
  ⟨by simpa [run_main] using run_files_attempts srcs o none,
   by simpa [run_main] using run_files_open_error_mem srcs o path cause hmem,
   rfl⟩

/-- C9 witness: a readable source followed by an unopenable one. -/
theorem c9_open_error_isolated_witness :
    ("bad.txt",
      (Except.error "No such file or directory (os error 2)" :
        Except String (List (List Char)))) ∈
      [("good.txt", (Except.ok [['x']] : Except String (List (List Char)))),
       ("bad.txt", Except.error "No such file or directory (os error 2)")] ∧
    ((run_main all_off none
        [("good.txt", Except.ok [['x']]),
         ("bad.txt", Except.error "No such file or directory (os error 2)")]).attempted =
      [("good.txt", (Except.ok [['x']] : Except String (List (List Char)))),
       ("bad.txt", Except.error "No such file or directory (os error 2)")].map
        Prod.fst ∧
     ("Error reading " ++ "bad.txt" ++ ": " ++
        "No such file or directory (os error 2)") ∈
       (run_main all_off none
         [("good.txt", Except.ok [['x']]),
          ("bad.txt", Except.error "No such file or directory (os error 2)")]).errors ∧
     (run_main all_off none
        [("good.txt", Except.ok [['x']]),
         ("bad.txt", Except.error "No such file or directory (os error 2)")]).exit_ok =
       true) :=
  ⟨by simp, c9_open_error_isolated all_off _ "bad.txt"
    "No such file or directory (os error 2)" (by simp)⟩

/-- C10: an empty source produces no output at all under every option set:
the pure transformer emits nothing and the fallible transformer returns
`Ok` without a single write call, from any state and any writer. -/
theorem c10_empty_input_no_output (o : Options) (st : TransformerState)
    (n : Nat) (lb : Bool) (fuel : Option Nat) (acc : List Char) :
    print_lines_to_writer o st [] = [] ∧
    print_lines_io o n lb fuel acc [] = Except.ok (fuel, acc) :=
  ⟨rfl, rfl⟩

end Rocat
